import Mathlib

/-!
Verification development for the session/identity orchestration layer of the
JGLsite gym-league application (`src/contexts/AuthContext.tsx`).

The React component is embedded shallowly: the observable session state
(`user`, `authUser`, `isLoading`, `error`) becomes an explicit record, the
persisted `localStorage` slot `demoUser` becomes a `Slot` value, and every
external call (Supabase sign-in / sign-up / sign-out / profile fetch) is an
environment parameter giving that call's outcome.  Each operation of the
component (`login`, `signUp`, `logout`, the startup effect and the
`onAuthStateChange` handler) is a pure function from the prior world and the
environment outcomes to the next world, the thrown-or-returned outcome, and
the trace of external calls made.
-/

namespace JGL

/-- `UserProfile` row (`Database['public']['Tables']['user_profiles']['Row']`),
as used by `AuthContext.tsx`.  Timestamps are opaque strings. -/
structure UserProfile where
  id : String
  email : String
  first_name : String
  last_name : String
  role : String
  gym_id : Option String
  phone : Option String
  date_of_birth : Option String
  is_active : Bool
  created_at : String
  updated_at : String
deriving Repr, DecidableEq

/-- Instrumentation tag recording which code path last wrote `user`:
the demo paths (catalog hit, demo fallback, unconfigured sign-up, persisted
slot) or the provider-backed profile load. -/
inductive Src
  | demo
  | provider
deriving Repr, DecidableEq

/-- A value obtained from `JSON.parse` of the persisted slot: a well-formed
profile, or a JSON value of any other shape.  The code performs no runtime
validation — `setUser(parsedUser)` installs either. -/
inductive UserVal
  | profile (p : UserProfile)
  | junk (raw : String)
deriving Repr, DecidableEq

instance : Coe UserProfile UserVal := ⟨UserVal.profile⟩

/-- The `localStorage` slot `demoUser`: absent, holding content that
`JSON.parse` accepts (deserializing to `v`, whether or not `v` is a
well-formed profile), or holding content that `JSON.parse` rejects. -/
inductive Slot
  | absent
  | stored (v : UserVal)
  | unparsable
deriving Repr, DecidableEq

/-- The observable session state of `AuthProvider`: the four `useState` cells
`user`, `authUser`, `isLoading`, `error`, plus the `source` instrumentation
tag for the provenance of `user`.  `user` holds whatever value was passed to
`setUser` — a constructed profile on the login/signup/load paths, or an
arbitrary parsed JSON value on the startup slot-restore path. -/
structure AuthState where
  user : Option UserVal
  authUser : Option String
  isLoading : Bool
  error : Option String
  source : Option Src
deriving Repr, DecidableEq

/-- The world an operation acts on: the component state, the persisted slot,
and the ids of remote provider accounts created so far (instrumentation for
the no-rollback property of `signUp`). -/
structure World where
  state : AuthState
  slot : Slot
  remote : List String
deriving Repr, DecidableEq

/-- An error object returned by a Supabase call (`{ error }`), carrying its
`message`. -/
structure ProviderError where
  message : String
deriving Repr, DecidableEq

/-- External calls an operation can make, for call-trace assertions. -/
inductive ExtCall
  | signIn
  | signUpAcct
  | createProfile
  | signOut
deriving Repr, DecidableEq

/-- Outcome of one operation: the new world, the exception propagated to the
caller (`none` when the promise resolves), and the external calls made, in
order. -/
structure Outcome where
  world : World
  thrown : Option String
  calls : List ExtCall
deriving Repr, DecidableEq

/-- `error.message.includes(pat)`: substring containment on strings. -/
def strContains (s pat : String) : Bool :=
  (List.range (s.toList.length + 1)).any fun i =>
    ((s.toList.drop i).take pat.toList.length) == pat.toList

/-- Decimal rendering of a natural number: the embedding of the JS template
interpolation of `Date.now()`. -/
def natDecimal (n : Nat) : String :=
  if n = 0 then "0" else ((Nat.digits 10 n).reverse.map Nat.digitChar).asString

/-- The id synthesized by the unconfigured `signUp` path:
`` `demo-${Date.now()}` ``. -/
def demoId (t : Nat) : String := "demo-" ++ natDecimal t

/-- The compiled-in demo catalog `demoUsers`, keyed by email.  The
`created_at`/`updated_at` fields call `new Date().toISOString()` at module
load; `now` is that timestamp. -/
def demoUsers (now : String) : String → Option UserProfile := fun email =>
  if email = "admin@demo.com" then
    some { id := "demo-admin-id", email := "admin@demo.com",
           first_name := "League", last_name := "Administrator",
           role := "admin", gym_id := none, phone := none,
           date_of_birth := none, is_active := true,
           created_at := now, updated_at := now }
  else if email = "coach@demo.com" then
    some { id := "demo-coach-id", email := "coach@demo.com",
           first_name := "Sarah", last_name := "Johnson",
           role := "coach", gym_id := some "demo-gym-id", phone := none,
           date_of_birth := none, is_active := true,
           created_at := now, updated_at := now }
  else if email = "gymnast@demo.com" then
    some { id := "demo-gymnast-id", email := "gymnast@demo.com",
           first_name := "Emma", last_name := "Davis",
           role := "gymnast", gym_id := some "demo-gym-id", phone := none,
           date_of_birth := none, is_active := true,
           created_at := now, updated_at := now }
  else none

/-- `login(email, password)` (AuthContext.tsx lines 173-224).
Environment: `configured` is `isSupabaseConfigured`; `signInRes` is the
`error` field of the `signIn(email, password)` result (`none` = success);
`now` is the module-load timestamp of the demo catalog. -/
def login (configured : Bool) (signInRes : Option ProviderError) (now : String)
    (w : World) (email password : String) : Outcome :=
  -- setIsLoading(true); setError(null)
  let s0 : AuthState := { w.state with isLoading := true, error := none }
  -- if (password === 'demo123' && demoUsers[email])
  match (if password = "demo123" then demoUsers now email else none) with
  | some du =>
    { world := { w with
        state := { s0 with user := some du, isLoading := false, source := some .demo },
        slot := .stored du },
      thrown := none, calls := [] }
  | none =>
    if ¬ configured then
      -- setError(msg); setIsLoading(false); throw new Error(msg)
      let msg := "Supabase credentials are not configured."
      { world := { w with state := { s0 with error := some msg, isLoading := false } },
        thrown := some msg, calls := [] }
    else
      match signInRes with
      | some e =>
        if strContains e.message "Email not confirmed" ∧ password = "demo123" then
          match demoUsers now email with
          | some du =>
            { world := { w with
                state := { s0 with user := some du, isLoading := false, source := some .demo },
                slot := .stored du },
              thrown := none, calls := [.signIn] }
          | none =>
            -- throw new Error(error.message), caught by the catch block
            { world := { w with
                state := { s0 with error := some e.message, isLoading := false } },
              thrown := some e.message, calls := [.signIn] }
        else
          { world := { w with
              state := { s0 with error := some e.message, isLoading := false } },
            thrown := some e.message, calls := [.signIn] }
      | none =>
        -- success: profile load deferred to the auth state change listener
        { world := { w with state := s0 }, thrown := none, calls := [.signIn] }

/-- `signUp(email, password, firstName, lastName)` (AuthContext.tsx lines
226-303).  Environment: `signUpRes` is the `supabaseSignUp` outcome — an
error, or `data.user?.id`; `signInRes` and `createRes` are the `error`
fields of the subsequent `signIn` and `createUserProfile` calls; `nowMs` is
`Date.now()` and `now` is `new Date().toISOString()`. -/
def signUp (configured : Bool)
    (signUpRes : Except ProviderError (Option String))
    (signInRes : Option ProviderError) (createRes : Option ProviderError)
    (nowMs : Nat) (now : String)
    (w : World) (email _password firstName lastName : String) : Outcome :=
  -- setIsLoading(true); setError(null)
  let s0 : AuthState := { w.state with isLoading := true, error := none }
  if ¬ configured then
    let du : UserProfile :=
      { id := demoId nowMs, email := email,
        first_name := firstName, last_name := lastName,
        role := "gymnast", gym_id := none, phone := none,
        date_of_birth := none, is_active := true,
        created_at := now, updated_at := now }
    { world := { w with
        state := { s0 with user := some du, isLoading := false, source := some .demo },
        slot := .stored du },
      thrown := none, calls := [] }
  else
    -- the catch block: setError(msg); setIsLoading(false); rethrow
    let fail : World → String → List ExtCall → Outcome := fun base msg calls =>
      { world := { base with state := { s0 with error := some msg, isLoading := false } },
        thrown := some msg, calls := calls }
    match signUpRes with
    | .error e => fail w e.message [.signUpAcct]
    | .ok uid? =>
      match uid? with
      | none => fail w "Sign up succeeded but no user ID returned" [.signUpAcct]
      | some uid =>
        -- the remote account now exists; nothing ever deletes it
        let w1 : World := { w with remote := w.remote ++ [uid] }
        match signInRes with
        | some e => fail w1 e.message [.signUpAcct, .signIn]
        | none =>
          match createRes with
          | some e => fail w1 e.message [.signUpAcct, .signIn, .createProfile]
          | none =>
            -- success: no state write here; the listener completes the flow
            { world := { w1 with state := s0 }, thrown := none,
              calls := [.signUpAcct, .signIn, .createProfile] }

/-- `logout()` (AuthContext.tsx lines 305-322).  `signOutRes` is the `error`
field of the provider `signOut()` result. -/
def logout (signOutRes : Option ProviderError) (w : World) : Outcome :=
  -- setError(null); localStorage.removeItem('demoUser')
  let s0 : AuthState := { w.state with error := none }
  -- if (error) setError(error.message)
  let s1 : AuthState :=
    match signOutRes with
    | some e => { s0 with error := some e.message }
    | none => s0
  -- setUser(null); setAuthUser(null)
  { world := { w with
      state := { s1 with user := none, authUser := none, source := none },
      slot := .absent },
    thrown := none, calls := [.signOut] }

/-- Outcome of `getUserProfile(userId)` as seen by `loadUserProfile`:
a profile (`data`), a returned error, a null `data` with no error, or a
thrown exception. -/
inductive LoadRes
  | ok (p : UserProfile)
  | fetchError (e : ProviderError)
  | noData
  | exn (msg : String)
deriving Repr, DecidableEq

/-- `loadUserProfile(userId)` (AuthContext.tsx lines 154-171): on error or
exception set the error descriptor, on data set `user`; always clear
`isLoading` in the `finally` block.  Never raises to its caller. -/
def loadUserProfile (res : LoadRes) (s : AuthState) : AuthState :=
  let s1 : AuthState :=
    match res with
    | .ok p => { s with user := some p, source := some .provider }
    | .fetchError _ => { s with error := some "Failed to load user profile" }
    | .noData => s
    | .exn _ => { s with error := some "Failed to load user profile" }
  { s1 with isLoading := false }

/-- The `onAuthStateChange` handler (AuthContext.tsx lines 134-146).
`sessionUser` is `session?.user` (its id); `none` is a session-ended
notification. -/
def authChange (sessionUser : Option String) (loadRes : LoadRes)
    (w : World) : World :=
  match sessionUser with
  | some uid =>
    { w with state := loadUserProfile loadRes { w.state with authUser := some uid } }
  | none =>
    { w with state :=
        { w.state with
          authUser := none, user := none, isLoading := false, source := none } }

/-- The startup effect (AuthContext.tsx lines 103-131): read the persisted
slot.  Only a `JSON.parse` exception is caught: it clears the slot and falls
through to `supabase.auth.getSession()`.  Content that parses — whether or
not it is a well-formed profile — is installed via `setUser(parsedUser)`
with an early return, the slot left untouched and the provider never
consulted.  A live session loads the profile.  `sessionUser` is
`session?.user` of the `getSession` result. -/
def init (slot : Slot) (sessionUser : Option String) (loadRes : LoadRes) : World :=
  let s0 : AuthState :=
    { user := none, authUser := none, isLoading := true, error := none, source := none }
  match slot with
  | .stored v =>
    -- JSON.parse succeeded: setUser(parsedUser); setIsLoading(false); return
    { state := { s0 with user := some v, isLoading := false, source := some .demo },
      slot := .stored v, remote := [] }
  | _ =>
    -- on .unparsable: localStorage.removeItem('demoUser'); then fall through
    let slot1 : Slot := match slot with | .unparsable => .absent | s => s
    match sessionUser with
    | some uid =>
      { state := loadUserProfile loadRes { s0 with authUser := some uid },
        slot := slot1, remote := [] }
    | none =>
      { state := { s0 with isLoading := false }, slot := slot1, remote := [] }

/-- One user-visible operation on the session manager together with the
environment outcomes of the external calls it makes. -/
inductive Op
  | loginOp (signInRes : Option ProviderError) (now : String) (email password : String)
  | signUpOp (signUpRes : Except ProviderError (Option String))
      (signInRes : Option ProviderError) (createRes : Option ProviderError)
      (nowMs : Nat) (now : String) (email password firstName lastName : String)
  | logoutOp (signOutRes : Option ProviderError)
  | authChangeOp (sessionUser : Option String) (loadRes : LoadRes)

/-- Apply one operation to the world.  `configured` is the process-wide
`isSupabaseConfigured` constant. -/
def step (configured : Bool) (w : World) : Op → World
  | .loginOp r now e p => (login configured r now w e p).world
  | .signUpOp su si cr t now e p fn ln =>
      (signUp configured su si cr t now w e p fn ln).world
  | .logoutOp r => (logout r w).world
  | .authChangeOp s l => authChange s l w

/-- Run a sequence of operations. -/
def run (configured : Bool) (w : World) : List Op → World
  | [] => w
  | op :: ops => run configured (step configured w op) ops

/-- The spec's `Unauthenticated` observable state: no profile and no
identity. -/
def Unauthenticated (s : AuthState) : Prop :=
  s.user = none ∧ s.authUser = none

instance (s : AuthState) : Decidable (Unauthenticated s) := by
  unfold Unauthenticated; infer_instance

/-- The single-source invariant of the spec: a demo-sourced profile excludes
a live provider identity. -/
def DemoExcludesIdentity (w : World) : Prop :=
  w.state.source = some Src.demo → w.state.authUser = none

instance (w : World) : Decidable (DemoExcludesIdentity w) := by
  unfold DemoExcludesIdentity; infer_instance

/-- Does this operation take a path that installs a demo-sourced profile?
(`login` with the sentinel password and a catalog email, or `signUp` with no
provider configured.) -/
def opSetsDemoProfile (configured : Bool) (op : Op) : Bool :=
  match op with
  | .loginOp _ now email password =>
      password == "demo123" && (demoUsers now email).isSome
  | .signUpOp _ _ _ _ _ _ _ _ _ => !configured
  | _ => false

/-- Guard on one step: demo-profile-installing operations run only with no
live identity, and a session-established notification whose profile load
does not return a row does not arrive while a demo profile is active. -/
def stepOk (configured : Bool) (w : World) (op : Op) : Bool :=
  (if opSetsDemoProfile configured op then w.state.authUser.isNone else true) &&
  (match op with
   | .authChangeOp (some _) lr =>
       (match lr with
        | .ok _ => true
        | _ => !(w.state.source == some Src.demo))
   | _ => true)

/-- Guard over a whole trace, checked at each intermediate world. -/
def goodFrom (configured : Bool) : World → List Op → Bool
  | _, [] => true
  | w, op :: ops =>
      stepOk configured w op && goodFrom configured (step configured w op) ops

/-- A concrete provider-side profile used in counterexample runs. -/
def sampleProfile : UserProfile :=
  { id := "uid-1", email := "real@x.com", first_name := "Real",
    last_name := "User", role := "coach", gym_id := some "g1", phone := none,
    date_of_birth := none, is_active := true,
    created_at := "2025-01-01", updated_at := "2025-01-01" }

/-! ## Helper lemmas -/

theorem digitChar_inj_lt (a b : Nat) (ha : a < 10) (hb : b < 10)
    (h : Nat.digitChar a = Nat.digitChar b) : a = b := by
  have H : ∀ a < 10, ∀ b < 10, Nat.digitChar a = Nat.digitChar b → a = b := by decide
  exact H a ha b hb h

theorem map_digitChar_inj : ∀ (l1 l2 : List Nat),
    (∀ d ∈ l1, d < 10) → (∀ d ∈ l2, d < 10) →
    l1.map Nat.digitChar = l2.map Nat.digitChar → l1 = l2
  | [], [], _, _, _ => rfl
  | [], _ :: _, _, _, h => by simp at h
  | _ :: _, [], _, _, h => by simp at h
  | a :: t1, b :: t2, h1, h2, h => by
    simp only [List.map_cons, List.cons.injEq] at h
    have ha := h1 a (List.mem_cons_self a t1)
    have hb := h2 b (List.mem_cons_self b t2)
    have hab := digitChar_inj_lt a b ha hb h.1
    have ht := map_digitChar_inj t1 t2
      (fun d hd => h1 d (List.mem_cons_of_mem _ hd))
      (fun d hd => h2 d (List.mem_cons_of_mem _ hd)) h.2
    rw [hab, ht]

theorem natDecimal_ne_zero_str {n : Nat} (hn : n ≠ 0) : natDecimal n ≠ "0" := by
  unfold natDecimal
  rw [if_neg hn]
  intro h
  have hdat := congrArg String.data h
  simp only [List.asString] at hdat
  have hOne : ((Nat.digits 10 n).reverse.map Nat.digitChar) = ['0'] := hdat
  have hrev : ∃ d, (Nat.digits 10 n).reverse = [d] ∧ Nat.digitChar d = '0' := by
    cases hr : (Nat.digits 10 n).reverse with
    | nil => rw [hr] at hOne; simp at hOne
    | cons d t =>
      rw [hr] at hOne
      cases t with
      | nil => exact ⟨d, rfl, by simpa using hOne⟩
      | cons d2 t2 => simp at hOne
  obtain ⟨d, hd, hchar⟩ := hrev
  have hdig : Nat.digits 10 n = [d] := by
    have := congrArg List.reverse hd
    simpa using this
  have hdlt : d < 10 :=
    Nat.digits_lt_base (by norm_num) (by rw [hdig]; exact List.mem_singleton_self d)
  have hd0 : d = 0 := digitChar_inj_lt d 0 hdlt (by norm_num) (by simpa using hchar)
  have := Nat.ofDigits_digits 10 n
  rw [hdig, hd0] at this
  simp [Nat.ofDigits] at this
  exact hn this.symm

theorem natDecimal_inj {m n : Nat} (h : natDecimal m = natDecimal n) : m = n := by
  by_cases hm : m = 0
  · by_cases hn : n = 0
    · rw [hm, hn]
    · subst hm
      exact absurd h.symm (natDecimal_ne_zero_str hn)
  · by_cases hn : n = 0
    · subst hn
      exact absurd h (natDecimal_ne_zero_str hm)
    · unfold natDecimal at h
      rw [if_neg hm, if_neg hn] at h
      have hdat := congrArg String.data h
      simp only [List.asString] at hdat
      have hmap : (Nat.digits 10 m).map Nat.digitChar = (Nat.digits 10 n).map Nat.digitChar := by
        have h1 : ((Nat.digits 10 m).map Nat.digitChar).reverse
            = ((Nat.digits 10 n).map Nat.digitChar).reverse := by
          simpa [List.map_reverse] using hdat
        simpa using congrArg List.reverse h1
      have hdig : Nat.digits 10 m = Nat.digits 10 n :=
        map_digitChar_inj _ _
          (fun d hd => Nat.digits_lt_base (by norm_num) hd)
          (fun d hd => Nat.digits_lt_base (by norm_num) hd) hmap
      have h1 := Nat.ofDigits_digits 10 m
      have h2 := Nat.ofDigits_digits 10 n
      rw [hdig] at h1
      rw [← h1, h2]

theorem demoId_inj {m n : Nat} (h : demoId m = demoId n) : m = n := by
  unfold demoId at h
  have hdat := congrArg String.data h
  simp only [String.data_append] at hdat
  have hcancel : (natDecimal m).data = (natDecimal n).data :=
    List.append_cancel_left hdat
  exact natDecimal_inj (String.ext hcancel)

/-! ## Claim theorems -/

/-- C2: for every prior state, `logout()` clears the persisted slot, invokes
the provider sign-out, and unconditionally ends with no profile and no
identity; a sign-out failure is recorded in the error descriptor but does
not block the transition, and `logout` never raises. -/
theorem logout_spec (w : World) (signOutRes : Option ProviderError) :
    (logout signOutRes w).thrown = none ∧
    (logout signOutRes w).world.slot = Slot.absent ∧
    (logout signOutRes w).world.state.user = none ∧
    (logout signOutRes w).world.state.authUser = none ∧
    Unauthenticated (logout signOutRes w).world.state ∧
    (logout signOutRes w).world.state.error = signOutRes.map ProviderError.message ∧
    (logout signOutRes w).calls = [ExtCall.signOut] := by
  cases signOutRes <;> simp [logout, Unauthenticated, Option.map]

/-- C9: a session-ended change-notification clears both identity and profile
unconditionally, from every prior state. -/
theorem authChange_sessionEnded (w : World) (lr : LoadRes) :
    (authChange none lr w).state.user = none ∧
    (authChange none lr w).state.authUser = none ∧
    Unauthenticated (authChange none lr w).state := by
  simp [authChange, Unauthenticated]

/-- C6: for every catalog email, `login(E, demoSentinel)` succeeds with no
provider call, installs `catalog[E]` as the profile with `isLoading` false,
and persists exactly that profile; the `coach@demo.com` entry has role
`coach` and gym `demo-gym-id`. -/
theorem login_demo_catalog (now email : String) (p : UserProfile)
    (hp : demoUsers now email = some p)
    (configured : Bool) (signInRes : Option ProviderError) (w : World) :
    (login configured signInRes now w email "demo123").thrown = none ∧
    (login configured signInRes now w email "demo123").calls = [] ∧
    (login configured signInRes now w email "demo123").world.state.user = some p ∧
    (login configured signInRes now w email "demo123").world.state.isLoading = false ∧
    (login configured signInRes now w email "demo123").world.state.source = some Src.demo ∧
    (login configured signInRes now w email "demo123").world.slot = Slot.stored p ∧
    (demoUsers now "coach@demo.com").map UserProfile.role = some "coach" ∧
    (demoUsers now "coach@demo.com").map UserProfile.gym_id = some (some "demo-gym-id") := by
  have hcoach1 : (demoUsers now "coach@demo.com").map UserProfile.role = some "coach" := by
    simp [demoUsers]
  have hcoach2 : (demoUsers now "coach@demo.com").map UserProfile.gym_id
      = some (some "demo-gym-id") := by
    simp [demoUsers]
  simp [login, hp, hcoach1, hcoach2]

/-- Witness for C6 at the coach catalog entry. -/
theorem login_demo_catalog_witness :
    demoUsers "T0" "coach@demo.com" = some
      { id := "demo-coach-id", email := "coach@demo.com",
        first_name := "Sarah", last_name := "Johnson",
        role := "coach", gym_id := some "demo-gym-id", phone := none,
        date_of_birth := none, is_active := true,
        created_at := "T0", updated_at := "T0" } ∧
    (login true none "T0" (init .absent none .noData) "coach@demo.com" "demo123").thrown = none ∧
    (login true none "T0" (init .absent none .noData) "coach@demo.com" "demo123").calls = [] := by
  refine ⟨by decide, ?_, ?_⟩
  · exact (login_demo_catalog "T0" "coach@demo.com"
      { id := "demo-coach-id", email := "coach@demo.com",
        first_name := "Sarah", last_name := "Johnson",
        role := "coach", gym_id := some "demo-gym-id", phone := none,
        date_of_birth := none, is_active := true,
        created_at := "T0", updated_at := "T0" } (by decide) true none
      (init .absent none .noData)).1
  · exact (login_demo_catalog "T0" "coach@demo.com"
      { id := "demo-coach-id", email := "coach@demo.com",
        first_name := "Sarah", last_name := "Johnson",
        role := "coach", gym_id := some "demo-gym-id", phone := none,
        date_of_birth := none, is_active := true,
        created_at := "T0", updated_at := "T0" } (by decide) true none
      (init .absent none .noData)).2.1

/-- Counterexample for C7: two unconfigured sign-ups with distinct inputs in
the same millisecond (`Date.now()` returns the same value) synthesize the
very same id `demo-5` — the ids are not pairwise distinct across repeated
calls. -/
theorem signUp_demo_id_collision :
    (signUp false (.ok none) none none 5 "T0" (init .absent none .noData)
        "a@x.com" "p1" "A" "B").world.state.user
      = some (UserVal.profile
        { id := demoId 5, email := "a@x.com", first_name := "A",
          last_name := "B", role := "gymnast", gym_id := none, phone := none,
          date_of_birth := none, is_active := true,
          created_at := "T0", updated_at := "T0" }) ∧
    (signUp false (.ok none) none none 5 "T0" (init .absent none .noData)
        "b@y.com" "p2" "C" "D").world.state.user
      = some (UserVal.profile
        { id := demoId 5, email := "b@y.com", first_name := "C",
          last_name := "D", role := "gymnast", gym_id := none, phone := none,
          date_of_birth := none, is_active := true,
          created_at := "T0", updated_at := "T0" }) := by
  constructor <;> simp [signUp]

/-- C7 amended: `signUp` with no provider configured synthesizes a profile
with role `gymnast` and no gym, persists it, makes no external call, and the
synthesized ids of two calls at distinct millisecond timestamps are
distinct; the timestamp is the only entropy, so two calls in the same
millisecond collide. -/
theorem signUp_unconfigured (su : Except ProviderError (Option String))
    (si cr : Option ProviderError) (t1 t2 : Nat) (now : String) (w : World)
    (email pw fn ln : String) (hne : t1 ≠ t2) :
    (signUp false su si cr t1 now w email pw fn ln).thrown = none ∧
    (signUp false su si cr t1 now w email pw fn ln).calls = [] ∧
    (signUp false su si cr t1 now w email pw fn ln).world.state.user
      = some (UserVal.profile
      { id := demoId t1, email := email, first_name := fn, last_name := ln,
        role := "gymnast", gym_id := none, phone := none, date_of_birth := none,
        is_active := true, created_at := now, updated_at := now }) ∧
    (signUp false su si cr t1 now w email pw fn ln).world.slot
      = Slot.stored (UserVal.profile
      { id := demoId t1, email := email, first_name := fn, last_name := ln,
        role := "gymnast", gym_id := none, phone := none, date_of_birth := none,
        is_active := true, created_at := now, updated_at := now }) ∧
    (signUp false su si cr t1 now w email pw fn ln).world.state.isLoading = false ∧
    demoId t1 ≠ demoId t2 := by
  refine ⟨?_, ?_, ?_, ?_, ?_, fun hc => hne (demoId_inj hc)⟩ <;> simp [signUp]

/-- Witness for C7: two distinct timestamps give distinct synthesized ids. -/
theorem signUp_unconfigured_witness :
    (1 : Nat) ≠ 2 ∧ demoId 1 ≠ demoId 2 :=
  ⟨by decide,
   (signUp_unconfigured (.ok none) none none 1 2 "T0"
     (init .absent none .noData) "e@x.com" "pw" "A" "B" (by decide)).2.2.2.2.2⟩

/-- C10: when a provider is configured and all three `signUp` steps succeed,
`signUp` itself writes no profile, no slot, and leaves `isLoading` true:
the state update is left to the change-notification handler. -/
theorem signUp_success_frame (uid : String) (nowMs : Nat) (now : String)
    (w : World) (email pw fn ln : String) :
    (signUp true (.ok (some uid)) none none nowMs now w email pw fn ln).thrown = none ∧
    (signUp true (.ok (some uid)) none none nowMs now w email pw fn ln).world.state.user
      = w.state.user ∧
    (signUp true (.ok (some uid)) none none nowMs now w email pw fn ln).world.slot
      = w.slot ∧
    (signUp true (.ok (some uid)) none none nowMs now w email pw fn ln).world.state.isLoading
      = true ∧
    (signUp true (.ok (some uid)) none none nowMs now w email pw fn ln).world.state.authUser
      = w.state.authUser ∧
    (signUp true (.ok (some uid)) none none nowMs now w email pw fn ln).world.state.source
      = w.state.source := by
  simp [signUp]

/-- C1: provider-backed `signUp` performs create-account, sign-in,
create-profile in that strict order, aborting at the first failing step; a
create-profile failure surfaces that error, sets the error descriptor, and
the remote account created in the first step still exists (no rollback). -/
theorem signUp_noRollback (uid : String) (e : ProviderError) (nowMs : Nat)
    (now : String) (w : World) (email pw fn ln : String) :
    (signUp true (.ok (some uid)) none (some e) nowMs now w email pw fn ln).calls
      = [ExtCall.signUpAcct, ExtCall.signIn, ExtCall.createProfile] ∧
    (signUp true (.ok (some uid)) none (some e) nowMs now w email pw fn ln).thrown
      = some e.message ∧
    (signUp true (.ok (some uid)) none (some e) nowMs now w email pw fn ln).world.state.error
      = some e.message ∧
    (signUp true (.ok (some uid)) none (some e) nowMs now w email pw fn ln).world.state.isLoading
      = false ∧
    uid ∈ (signUp true (.ok (some uid)) none (some e) nowMs now w email pw fn ln).world.remote ∧
    (∀ (e1 : ProviderError) (si cr : Option ProviderError),
      (signUp true (.error e1) si cr nowMs now w email pw fn ln).calls
        = [ExtCall.signUpAcct] ∧
      (signUp true (.error e1) si cr nowMs now w email pw fn ln).thrown
        = some e1.message) ∧
    (∀ (e2 : ProviderError) (cr : Option ProviderError),
      (signUp true (.ok (some uid)) (some e2) cr nowMs now w email pw fn ln).calls
        = [ExtCall.signUpAcct, ExtCall.signIn] ∧
      (signUp true (.ok (some uid)) (some e2) cr nowMs now w email pw fn ln).thrown
        = some e2.message ∧
      uid ∈ (signUp true (.ok (some uid)) (some e2) cr nowMs now w email pw fn ln).world.remote) := by
  simp [signUp]

/-- C5: when `login` delegates to the provider (demo precheck misses) and
the provider sign-in fails, the demo fallback fires exactly when the error
indicates an unverified account, the password is the sentinel, and the email
is in the catalog; otherwise the error propagates and the error descriptor
is populated.  (Under the delegation hypothesis the fallback condition can
never hold, so every provider failure propagates.) -/
theorem login_provider_failure (now email password : String)
    (e : ProviderError) (w : World)
    (hpre : ¬ (password = "demo123" ∧ (demoUsers now email).isSome = true)) :
    (login true (some e) now w email password).calls = [ExtCall.signIn] ∧
    ((login true (some e) now w email password).thrown = none
      ↔ (strContains e.message "Email not confirmed" = true ∧ password = "demo123"
          ∧ (demoUsers now email).isSome = true)) ∧
    (login true (some e) now w email password).thrown = some e.message ∧
    (login true (some e) now w email password).world.state.error = some e.message ∧
    (login true (some e) now w email password).world.state.isLoading = false := by
  by_cases hp : password = "demo123"
  · have hcat : demoUsers now email = none := by
      cases hc : demoUsers now email with
      | none => rfl
      | some p => exact absurd ⟨hp, by simp [hc]⟩ hpre
    by_cases hcontains : strContains e.message "Email not confirmed" = true
    · simp [login, hp, hcat, hcontains]
    · simp [login, hp, hcat, hcontains]
  · simp [login, hp]

/-- Witness for C5: wrong credentials with a configured provider propagate
the provider's error. -/
theorem login_provider_failure_witness :
    (¬ (("pw" : String) = "demo123"
        ∧ (demoUsers "T0" "user@x.com").isSome = true)) ∧
    (login true (some { message := "Invalid login credentials" }) "T0"
      (init .absent none .noData) "user@x.com" "pw").thrown
      = some "Invalid login credentials" :=
  ⟨by decide,
   (login_provider_failure "T0" "user@x.com" "pw"
     { message := "Invalid login credentials" }
     (init .absent none .noData) (by decide)).2.2.1⟩

/-- Counterexample for C4: with no provider configured and non-demo
credentials, `login` throws the configuration error and records it in the
error descriptor — the missing configuration is surfaced to the caller. -/
theorem login_unconfigured_throws :
    (login false none "T0" (init .absent none .noData) "user@x.com" "pw").thrown
      = some "Supabase credentials are not configured." ∧
    (login false none "T0" (init .absent none .noData) "user@x.com" "pw").world.state.error
      = some "Supabase credentials are not configured." := by
  decide

/-- C4 amended: with no provider configured, `signUp` always takes the
pure-demo path and succeeds with no external call; `login` absorbs the
missing configuration only when the credentials match the demo catalog —
otherwise it surfaces a configuration error to the caller. -/
theorem configurationAbsent_policy :
    (∀ (su : Except ProviderError (Option String)) (si cr : Option ProviderError)
       (t : Nat) (now : String) (w : World) (email pw fn ln : String),
      (signUp false su si cr t now w email pw fn ln).thrown = none ∧
      (signUp false su si cr t now w email pw fn ln).calls = []) ∧
    (∀ (si : Option ProviderError) (now : String) (w : World) (email pw : String),
      (pw = "demo123" ∧ (demoUsers now email).isSome = true) →
      (login false si now w email pw).thrown = none ∧
      (login false si now w email pw).calls = []) ∧
    (∀ (si : Option ProviderError) (now : String) (w : World) (email pw : String),
      ¬ (pw = "demo123" ∧ (demoUsers now email).isSome = true) →
      (login false si now w email pw).thrown
        = some "Supabase credentials are not configured.") := by
  refine ⟨fun su si cr t now w email pw fn ln => by simp [signUp],
          fun si now w email pw h => ?_,
          fun si now w email pw h => ?_⟩
  · obtain ⟨hp, hsome⟩ := h
    obtain ⟨p, hp2⟩ := Option.isSome_iff_exists.mp hsome
    simp [login, hp, hp2]
  · by_cases hp : pw = "demo123"
    · have hcat : demoUsers now email = none := by
        cases hc : demoUsers now email with
        | none => rfl
        | some p => exact absurd ⟨hp, by simp [hc]⟩ h
      simp [login, hp, hcat]
    · simp [login, hp]

/-- Witness for C4 amended: a catalog demo login is absorbed; non-demo
credentials surface the configuration error. -/
theorem configurationAbsent_policy_witness :
    (("demo123" : String) = "demo123"
      ∧ (demoUsers "T0" "admin@demo.com").isSome = true) ∧
    (login false none "T0" (init .absent none .noData) "admin@demo.com" "demo123").thrown
      = none ∧
    (¬ (("pw" : String) = "demo123" ∧ (demoUsers "T0" "other@x.com").isSome = true)) ∧
    (login false none "T0" (init .absent none .noData) "other@x.com" "pw").thrown
      = some "Supabase credentials are not configured." :=
  ⟨⟨rfl, by decide⟩,
   (configurationAbsent_policy.2.1 none "T0" (init .absent none .noData)
     "admin@demo.com" "demo123" ⟨rfl, by decide⟩).1,
   by decide,
   configurationAbsent_policy.2.2 none "T0" (init .absent none .noData)
     "other@x.com" "pw" (by decide)⟩

/-- Counterexample for C8: slot content that parses but is not a well-formed
profile (here the JSON value `42`) is not cleared and does not lead to
Unauthenticated — the code catches only `JSON.parse` exceptions, so the
parsed non-profile value is installed via `setUser` with an early return and
the slot left untouched. -/
theorem init_junk_not_unauthenticated :
    ¬ Unauthenticated (init (.stored (.junk "42")) none .noData).state ∧
    (init (.stored (.junk "42")) none .noData).slot = Slot.stored (.junk "42") ∧
    (init (.stored (.junk "42")) none .noData).state.user
      = some (UserVal.junk "42") := by
  decide

/-- C8 amended: startup never raises for any slot content, but the two
failure modes differ.  Content that `JSON.parse` rejects is cleared and
absorbed, ending Unauthenticated when the provider reports no active
session.  Content that parses — well-formed profile or not — is installed
as the user with loading finished and an early return: the slot is left
untouched and the provider is never consulted. -/
theorem init_badSlot_amended (su : Option String) (lr : LoadRes) (v : UserVal) :
    (init .unparsable su lr).slot = Slot.absent ∧
    (su = none → Unauthenticated (init .unparsable su lr).state ∧
      (init .unparsable su lr).state.isLoading = false) ∧
    (init (.stored v) su lr).slot = Slot.stored v ∧
    (init (.stored v) su lr).state.user = some v ∧
    (init (.stored v) su lr).state.isLoading = false ∧
    (init (.stored v) su lr).state.authUser = none := by
  cases su <;> simp [init, Unauthenticated]

/-- Witness for C8 amended: an unparsable slot with an empty provider
session, and a parse-successful non-profile slot value. -/
theorem init_badSlot_amended_witness :
    (init .unparsable none .noData).slot = Slot.absent ∧
    Unauthenticated (init .unparsable none .noData).state ∧
    (init (.stored (.junk "x")) none .noData).slot = Slot.stored (.junk "x") :=
  ⟨(init_badSlot_amended none .noData (.junk "x")).1,
   ((init_badSlot_amended none .noData (.junk "x")).2.1 rfl).1,
   (init_badSlot_amended none .noData (.junk "x")).2.2.1⟩

theorem login_authUser_frame (c : Bool) (r : Option ProviderError)
    (now : String) (w : World) (email password : String) :
    (login c r now w email password).world.state.authUser = w.state.authUser := by
  simp only [login]
  split
  · rfl
  · split
    · rfl
    · split
      · split
        · split <;> rfl
        · rfl
      · rfl

theorem login_source_demo (c : Bool) (r : Option ProviderError)
    (now : String) (w : World) (email password : String)
    (h : (login c r now w email password).world.state.source = some Src.demo) :
    w.state.source = some Src.demo
      ∨ (password = "demo123" ∧ (demoUsers now email).isSome = true) := by
  by_cases hp : password = "demo123"
  · cases hcat : demoUsers now email with
    | some du => exact Or.inr ⟨hp, by simp [hcat]⟩
    | none =>
      left
      by_cases hc : c
      · cases r with
        | none => simpa [login, hp, hcat, hc] using h
        | some e =>
          by_cases hm : strContains e.message "Email not confirmed" = true
          · simpa [login, hp, hcat, hc, hm] using h
          · simpa [login, hp, hcat, hc, hm] using h
      · simpa [login, hp, hcat, hc] using h
  · left
    by_cases hc : c
    · cases r with
      | none => simpa [login, hp, hc] using h
      | some e => simpa [login, hp, hc] using h
    · simpa [login, hp, hc] using h

theorem signUp_authUser_frame (c : Bool)
    (su : Except ProviderError (Option String)) (si cr : Option ProviderError)
    (t : Nat) (now : String) (w : World) (email pw fn ln : String) :
    (signUp c su si cr t now w email pw fn ln).world.state.authUser
      = w.state.authUser := by
  simp only [signUp]
  split
  · rfl
  · split
    · rfl
    · split
      · rfl
      · split
        · rfl
        · split <;> rfl

theorem signUp_source_demo (c : Bool)
    (su : Except ProviderError (Option String)) (si cr : Option ProviderError)
    (t : Nat) (now : String) (w : World) (email pw fn ln : String)
    (h : (signUp c su si cr t now w email pw fn ln).world.state.source
      = some Src.demo) :
    w.state.source = some Src.demo ∨ c = false := by
  cases hc : c with
  | false => exact Or.inr rfl
  | true =>
    subst hc
    left
    cases su with
    | error e => simpa [signUp] using h
    | ok uid? =>
      cases uid? with
      | none => simpa [signUp] using h
      | some uid =>
        cases si with
        | some e => simpa [signUp] using h
        | none =>
          cases cr with
          | some e => simpa [signUp] using h
          | none => simpa [signUp] using h

theorem init_demoExcludes (slot : Slot) (su : Option String) (lr : LoadRes) :
    DemoExcludesIdentity (init slot su lr) := by
  cases slot <;> cases su <;> cases lr <;>
    simp [init, DemoExcludesIdentity, loadUserProfile]

theorem step_demoExcludes (c : Bool) (w : World) (op : Op)
    (hw : DemoExcludesIdentity w) (hok : stepOk c w op = true) :
    DemoExcludesIdentity (step c w op) := by
  cases op with
  | loginOp r now email password =>
    intro hsrc
    simp only [step] at hsrc ⊢
    rw [login_authUser_frame]
    rcases login_source_demo c r now w email password hsrc with hold | hcond
    · exact hw hold
    · have hset : opSetsDemoProfile c (Op.loginOp r now email password) = true := by
        simp [opSetsDemoProfile, hcond.1, hcond.2]
      have hguard : w.state.authUser.isNone = true := by
        simpa [stepOk, hset] using hok
      exact Option.isNone_iff_eq_none.mp hguard
  | signUpOp su si cr t now email pw fn ln =>
    intro hsrc
    simp only [step] at hsrc ⊢
    rw [signUp_authUser_frame]
    rcases signUp_source_demo c su si cr t now w email pw fn ln hsrc with hold | hc
    · exact hw hold
    · have hset : opSetsDemoProfile c (Op.signUpOp su si cr t now email pw fn ln)
          = true := by
        simp [opSetsDemoProfile, hc]
      have hguard : w.state.authUser.isNone = true := by
        simpa [stepOk, hset] using hok
      exact Option.isNone_iff_eq_none.mp hguard
  | logoutOp r =>
    intro hsrc
    simp [step, logout] at hsrc
  | authChangeOp su lr =>
    cases su with
    | none => intro _; simp [step, authChange]
    | some uid =>
      intro hsrc
      exfalso
      cases lr with
      | ok p => simp [step, authChange, loadUserProfile] at hsrc
      | fetchError e =>
        have hg : ¬ ((w.state.source == some Src.demo) = true) := by
          simp only [stepOk, opSetsDemoProfile, Bool.and_eq_true] at hok
          simpa using hok.2
        simp only [step, authChange, loadUserProfile] at hsrc
        exact hg (by simp [hsrc])
      | noData =>
        have hg : ¬ ((w.state.source == some Src.demo) = true) := by
          simp only [stepOk, opSetsDemoProfile, Bool.and_eq_true] at hok
          simpa using hok.2
        simp only [step, authChange, loadUserProfile] at hsrc
        exact hg (by simp [hsrc])
      | exn m =>
        have hg : ¬ ((w.state.source == some Src.demo) = true) := by
          simp only [stepOk, opSetsDemoProfile, Bool.and_eq_true] at hok
          simpa using hok.2
        simp only [step, authChange, loadUserProfile] at hsrc
        exact hg (by simp [hsrc])

theorem run_demoExcludes (c : Bool) : ∀ (ops : List Op) (w : World),
    DemoExcludesIdentity w → goodFrom c w ops = true →
    DemoExcludesIdentity (run c w ops)
  | [], w, hw, _ => hw
  | op :: ops, w, hw, hg => by
    simp only [goodFrom, Bool.and_eq_true] at hg
    exact run_demoExcludes c ops (step c w op)
      (step_demoExcludes c w op hw hg.1) hg.2

/-- Counterexample for C3: a demo-sentinel login performed while a provider
session is active yields a demo-sourced profile together with a non-null
identity — the demo login path never clears `authUser`. -/
theorem demo_login_with_identity_mixed :
    ((run true (init .absent (some "uid-1") (.ok sampleProfile))
        [Op.loginOp none "T0" "coach@demo.com" "demo123"]).state.source
      = some Src.demo) ∧
    ((run true (init .absent (some "uid-1") (.ok sampleProfile))
        [Op.loginOp none "T0" "coach@demo.com" "demo123"]).state.authUser
      = some "uid-1") ∧
    (¬ DemoExcludesIdentity (run true (init .absent (some "uid-1")
        (.ok sampleProfile))
        [Op.loginOp none "T0" "coach@demo.com" "demo123"])) := by
  decide

/-- C3 amended: provided no demo-profile-installing operation (a
demo-sentinel catalog login, or an unconfigured sign-up) runs while a
provider identity is active, and no session-established notification whose
profile load returns no row arrives while a demo profile is active, every
state reachable from startup keeps the two sources exclusive: a demo-sourced
profile implies a null identity, so the identity is non-null only in the
real-provider case. -/
theorem singleSource_invariant (c : Bool) (slot : Slot) (su : Option String)
    (lr : LoadRes) (ops : List Op)
    (hg : goodFrom c (init slot su lr) ops = true) :
    DemoExcludesIdentity (run c (init slot su lr) ops) :=
  run_demoExcludes c ops (init slot su lr) (init_demoExcludes slot su lr) hg

/-- Witness for C3 amended on a concrete guarded trace. -/
theorem singleSource_invariant_witness :
    goodFrom true (init .absent none .noData)
      [Op.loginOp none "T0" "coach@demo.com" "demo123"] = true ∧
    DemoExcludesIdentity (run true (init .absent none .noData)
      [Op.loginOp none "T0" "coach@demo.com" "demo123"]) :=
  ⟨by decide, singleSource_invariant true .absent none .noData _ (by decide)⟩

end JGL
